import Mathlib

/-!
Verification of the smart-espresso firmware supervisor (`smart-espresso.ino`).
Machine integers (`uint32_t` / `unsigned long` on ESP8266, both 32 bits wide)
are modelled as `Nat` with explicit `% 2^32` wherever the source relies on
wrapping; fallible operations return `Option`.
-/

namespace SmartEspresso

/-- Constant 2^32, the modulus of the 32-bit unsigned arithmetic used throughout. -/
def U32 : Nat := 4294967296

/-- Wrapping 32-bit subtraction `a - b` as computed on `uint32_t` operands
(both operands are expected to be `< U32`). -/
def wsub (a b : Nat) : Nat := (a + (U32 - b % U32)) % U32

/-- Function `timeElapsed(startTime, interval)` from the source, with the value of
`millis()` passed explicitly as `now`:
`(currentTime - startTime >= interval) || (currentTime < startTime)`. -/
def timeElapsed (startTime interval now : Nat) : Bool :=
  decide (interval ≤ wsub now startTime) || decide (now < startTime)

/-- The `RestartReason` enum of the source. -/
inductive RestartReason where
  | unknown
  | user
  | watchdog
  | memory
  | wifi
  | mqtt
  | health
  | powerOn
deriving DecidableEq, Repr

/-- Numeric codes of the `RestartReason` enum constants. -/
def RestartReason.code : RestartReason → Nat
  | .unknown => 0
  | .user => 1
  | .watchdog => 2
  | .memory => 3
  | .wifi => 4
  | .mqtt => 5
  | .health => 6
  | .powerOn => 7

/-- The `RTCData` struct persisted in RTC memory.  All fields are `uint32_t`. -/
structure RTCData where
  crc32 : Nat
  totalRestarts : Nat
  watchdogRestarts : Nat
  memoryRestarts : Nat
  wifiRestarts : Nat
  mqttRestarts : Nat
  healthRestarts : Nat
  userRestarts : Nat
  unknownRestarts : Nat
  lastRestartReason : Nat
  coffeePouredTotal : Nat
deriving DecidableEq, Repr

/-- The CRC polynomial constant `0x04c11db7` of `calculateCRC32`. -/
def crcPoly : Nat := 0x04c11db7

/-- One inner-loop iteration of `calculateCRC32` (one data bit `b`):
`bool bit = crc & 0x80000000; if (c & i) bit = !bit; crc <<= 1;
if (bit) crc ^= 0x04c11db7;` on a 32-bit `crc`. -/
def crcStep (crc : Nat) (b : Bool) : Nat :=
  let bit := Bool.xor (crc.testBit 31) b
  let shifted := (crc <<< 1) % U32
  if bit then shifted ^^^ crcPoly else shifted

/-- The eight bits of a byte in the order the source scans them
(`i = 0x80` down to `i = 0x01`, i.e. most significant first). -/
def byteBits (c : Nat) : List Bool :=
  (List.range 8).map (fun j => c.testBit (7 - j))

/-- Processing one data byte of `calculateCRC32`. -/
def crcByte (crc c : Nat) : Nat := (byteBits c).foldl crcStep crc

/-- Function `calculateCRC32(data, length)`: CRC over a byte list, initial value
`0xffffffff`. -/
def calculateCRC32 (data : List Nat) : Nat := data.foldl crcByte 0xffffffff

/-- Little-endian byte decomposition of a 32-bit word, as laid out in the
RTC memory block on the (little-endian) ESP8266. -/
def le4 (x : Nat) : List Nat :=
  [x % 256, x / 256 % 256, x / 65536 % 256, x / 16777216 % 256]

/-- Reassembling a 32-bit word from the first four bytes of a block. -/
def le32val (bs : List Nat) : Nat :=
  bs.getD 0 0 + 256 * bs.getD 1 0 + 65536 * bs.getD 2 0 + 16777216 * bs.getD 3 0

/-- The bytes of an `RTCData` struct after the `crc32` field, in declaration
order — exactly the range `((uint8_t*)&rtcData) + 4 .. + sizeof(rtcData)`
that `writeRTCData`/`readRTCData` feed to `calculateCRC32`. -/
def RTCData.dataBytes (r : RTCData) : List Nat :=
  le4 r.totalRestarts ++ le4 r.watchdogRestarts ++ le4 r.memoryRestarts ++
  le4 r.wifiRestarts ++ le4 r.mqttRestarts ++ le4 r.healthRestarts ++
  le4 r.userRestarts ++ le4 r.unknownRestarts ++ le4 r.lastRestartReason ++
  le4 r.coffeePouredTotal

/-- Function `writeRTCData()`: recompute the CRC over every byte after the checksum
field and store it in the record that is written out. -/
def writeRTCData (r : RTCData) : RTCData :=
  { r with crc32 := calculateCRC32 r.dataBytes }

/-- The 44-byte RTC memory block holding a record. -/
def RTCData.block (r : RTCData) : List Nat := le4 r.crc32 ++ r.dataBytes

/-- The validation performed by `readRTCData()` on a block read back from RTC
memory: the CRC over the bytes after the stored checksum must equal the
stored checksum. -/
def validBlock (bl : List Nat) : Bool :=
  decide (calculateCRC32 (bl.drop 4) = le32val (bl.take 4))

/-- The block as persisted by `writeRTCData` for record contents `r`. -/
def persistBlock (r : RTCData) : List Nat := (writeRTCData r).block

/-- Flipping (xor-ing with `e ≠ 0`) the byte at index `i` of a block. -/
def flipAt (i e : Nat) (bl : List Nat) : List Nat :=
  bl.set i (bl.getD i 0 ^^^ e)

/-- Function `initRTCData()`: zero every counter, set
`lastRestartReason = RESTART_POWER_ON`, zero the all-time brew count, and
write (which recomputes the checksum; the pre-write `crc32` value is
irrelevant because `writeRTCData` overwrites it). -/
def initRTCData : RTCData :=
  writeRTCData
    { crc32 := 0
      totalRestarts := 0
      watchdogRestarts := 0
      memoryRestarts := 0
      wifiRestarts := 0
      mqttRestarts := 0
      healthRestarts := 0
      userRestarts := 0
      unknownRestarts := 0
      lastRestartReason := RestartReason.powerOn.code
      coffeePouredTotal := 0 }

/-- The `switch (reason)` of `recordRestart`: bump the per-reason counter.
`RESTART_UNKNOWN` and `RESTART_POWER_ON` both fall into the `default`
branch, which bumps `unknownRestarts`. -/
def bumpReasonCounter (reason : RestartReason) (r : RTCData) : RTCData :=
  match reason with
  | .user => { r with userRestarts := (r.userRestarts + 1) % U32 }
  | .watchdog => { r with watchdogRestarts := (r.watchdogRestarts + 1) % U32 }
  | .memory => { r with memoryRestarts := (r.memoryRestarts + 1) % U32 }
  | .wifi => { r with wifiRestarts := (r.wifiRestarts + 1) % U32 }
  | .mqtt => { r with mqttRestarts := (r.mqttRestarts + 1) % U32 }
  | .health => { r with healthRestarts := (r.healthRestarts + 1) % U32 }
  | .unknown => { r with unknownRestarts := (r.unknownRestarts + 1) % U32 }
  | .powerOn => { r with unknownRestarts := (r.unknownRestarts + 1) % U32 }

/-- Function `recordRestart(reason)`: increment `totalRestarts`, set
`lastRestartReason`, bump the per-reason counter, then
`rtcData.coffeePouredTotal = coffeePouredCount;` (a plain assignment of the
current session count, passed here as `sessionCount`), then `writeRTCData()`. -/
def recordRestart (reason : RestartReason) (sessionCount : Nat) (r : RTCData) :
    RTCData :=
  let r := { r with totalRestarts := (r.totalRestarts + 1) % U32,
                    lastRestartReason := reason.code }
  let r := bumpReasonCounter reason r
  let r := { r with coffeePouredTotal := sessionCount }
  writeRTCData r

/-- The 10-minute checkpoint block at the end of `loop()`:
`rtcData.coffeePouredTotal += coffeePouredCount; coffeePouredCount = 0;
writeRTCData();` — returns the updated record and the new session count. -/
def checkpointRTC (r : RTCData) (sessionCount : Nat) : RTCData × Nat :=
  (writeRTCData
      { r with coffeePouredTotal := (r.coffeePouredTotal + sessionCount) % U32 },
   0)

/-- Operations that touch the persisted record during a session: a recorded
restart, a 10-minute checkpoint, an operator `reset` command (which calls
`initRTCData()` and zeroes the session count), and the pour that increments
the session count. -/
inductive RTCOp where
  | record (reason : RestartReason)
  | checkpoint
  | reset
  | pour
deriving DecidableEq, Repr

/-- Effect of one operation on the pair (persisted record, session count). -/
def applyRTCOp (p : RTCData × Nat) (op : RTCOp) : RTCData × Nat :=
  match op with
  | .record reason => (recordRestart reason p.2 p.1, p.2)
  | .checkpoint => checkpointRTC p.1 p.2
  | .reset => (initRTCData, 0)
  | .pour => (p.1, (p.2 + 1) % U32)

/-- Running a sequence of operations from a cold boot (freshly initialized
record, session count 0). -/
def runRTC (ops : List RTCOp) : RTCData × Nat :=
  ops.foldl applyRTCOp (initRTCData, 0)

/-- Sum of the seven per-reason counter fields that exist in `RTCData`. -/
def reasonSum (r : RTCData) : Nat :=
  r.userRestarts + r.watchdogRestarts + r.memoryRestarts + r.wifiRestarts +
  r.mqttRestarts + r.healthRestarts + r.unknownRestarts

/-- The counter field that `recordRestart` bumps for a given reason.  The
record has no dedicated PowerOn counter: both `RESTART_UNKNOWN` and
`RESTART_POWER_ON` are counted in `unknownRestarts`. -/
def counterOf (reason : RestartReason) (r : RTCData) : Nat :=
  match reason with
  | .user => r.userRestarts
  | .watchdog => r.watchdogRestarts
  | .memory => r.memoryRestarts
  | .wifi => r.wifiRestarts
  | .mqtt => r.mqttRestarts
  | .health => r.healthRestarts
  | .unknown => r.unknownRestarts
  | .powerOn => r.unknownRestarts

/-- Reading of the phrase "the sum of the eight per-reason restart counters": the sum, over all
eight `RestartReason` variants, of the counter associated to that variant
by `recordRestart`. -/
def sumEightReasonCounters (r : RTCData) : Nat :=
  counterOf .unknown r + counterOf .user r + counterOf .watchdog r +
  counterOf .memory r + counterOf .wifi r + counterOf .mqtt r +
  counterOf .health r + counterOf .powerOn r

/-- The `State` enum of the brew state machine. -/
inductive MachineState where
  | idle
  | waiting
  | pouring
deriving DecidableEq, Repr

/-- The module-scoped mutable state of the sketch (the fields the supervisor
components read and write; pins, serial output and the network stacks are
external collaborators). -/
structure EspState where
  currentState : MachineState
  eventStartTime : Nat
  lastAliveTime : Nat
  lastMemoryCheck : Nat
  lastWiFiCheck : Nat
  lastMQTTAttempt : Nat
  lastSuccessfulMetrics : Nat
  lastMQTTMessage : Nat
  bootTime : Nat
  lastRTCUpdate : Nat
  coffeePouredCount : Nat
  systemHealthy : Bool
  consecutiveFailures : Nat
  wifiReconnectCount : Nat
  mqttReconnectCount : Nat
  forceRestart : Bool
  pendingRestartReason : RestartReason
  rtc : RTCData
deriving DecidableEq, Repr

/-- The two-assignment pattern `pendingRestartReason = reason;
forceRestart = true;` used at every site that requests a forced restart. -/
def raiseRestart (reason : RestartReason) (s : EspState) : EspState :=
  { s with pendingRestartReason := reason, forceRestart := true }

-- Interval constants of the source.

def aliveInterval : Nat := 60000
def memoryCheckInterval : Nat := 300000
def wifiCheckInterval : Nat := 30000
def mqttRetryInterval : Nat := 5000
def coffeeWaitTime : Nat := 150000
def stateTimeout : Nat := 300000
def wifiTimeout : Nat := 30000
def maxSilentTime : Nat := 300000
def maxMQTTSilentTime : Nat := 600000
def minFreeHeap : Nat := 1000

/-- Function `performHealthCheck()`, with the value of `millis()` passed as `now`.
The four ordered checks each request a restart and return; if none fire,
the daily rollover is guarded by the raw wrapped comparison
`now - bootTime > 86400000` (not by `timeElapsed`). -/
def performHealthCheck (now : Nat) (s : EspState) : EspState :=
  if timeElapsed s.lastSuccessfulMetrics maxSilentTime now then
    raiseRestart .health s
  else if timeElapsed s.lastMQTTMessage maxMQTTSilentTime now then
    raiseRestart .mqtt s
  else if s.wifiReconnectCount > 20 then
    raiseRestart .wifi s
  else if s.mqttReconnectCount > 50 then
    raiseRestart .mqtt s
  else if wsub now s.bootTime > 86400000 then
    { s with wifiReconnectCount := 0, mqttReconnectCount := 0, bootTime := now }
  else
    s

/-- The outcome of one `setupWiFi()` call on the module state.  The blocking
connect-wait loop itself only talks to the WiFi collaborator; `connected`
is `WiFi.status() == WL_CONNECTED` when the wait ends. -/
def setupWiFiResult (connected : Bool) (s : EspState) : EspState :=
  if connected then
    { s with systemHealthy := true, consecutiveFailures := 0 }
  else
    { s with systemHealthy := false,
             consecutiveFailures := s.consecutiveFailures + 1,
             wifiReconnectCount := s.wifiReconnectCount + 1 }

/-- Function `checkWiFiConnection()`, with `millis()` passed as `now`.  `linkOk` is
`WiFi.status() == WL_CONNECTED && WiFi.localIP() != 0.0.0.0` at the check;
`reconnected` is `WiFi.status() == WL_CONNECTED` after the `setupWiFi()`
attempt.  Note that a failed attempt increments `consecutiveFailures` twice:
once inside `setupWiFi` and once in this function. -/
def checkWiFiConnection (now : Nat) (linkOk reconnected : Bool) (s : EspState) :
    EspState :=
  if timeElapsed s.lastWiFiCheck wifiCheckInterval now then
    let s := { s with lastWiFiCheck := now }
    if linkOk then s
    else
      let s := setupWiFiResult reconnected s
      if reconnected then
        { s with consecutiveFailures := 0 }
      else
        let s := { s with consecutiveFailures := s.consecutiveFailures + 1 }
        if s.consecutiveFailures ≥ 5 then raiseRestart .wifi s else s
  else
    s

/-- One failed reconnection round of `checkWiFiConnection`: the periodic
check finds the link down and the `setupWiFi()` attempt fails too. -/
def failedWiFiRound (now : Nat) (s : EspState) : EspState :=
  checkWiFiConnection now false false s

/-- Function `pourCoffee()`: enter `POURING`, drive the dispense relay (external),
increment the session brew count, return to `IDLE`. -/
def pourCoffee (s : EspState) : EspState :=
  { s with currentState := .idle,
           coffeePouredCount := (s.coffeePouredCount + 1) % U32 }

/-- Function `handleCoffeeProcess()`, with `millis()` passed as `now`. -/
def handleCoffeeProcess (now : Nat) (s : EspState) : EspState :=
  if s.currentState = .waiting ∧ timeElapsed s.eventStartTime coffeeWaitTime now
  then pourCoffee s
  else s

/-- Function `checkStateTimeout()`, with `millis()` passed as `now`. -/
def checkStateTimeout (now : Nat) (s : EspState) : EspState :=
  if s.currentState ≠ .idle ∧ timeElapsed s.eventStartTime stateTimeout now
  then { s with currentState := .idle }
  else s

/-- The whitespace characters removed by the Arduino `String::trim()`
(`isspace`: space, tab, newline, vertical tab, form feed, carriage return). -/
def isTrimSpace (c : Char) : Bool :=
  c = ' ' || c = '\t' || c = '\n' || c = '\x0b' || c = '\x0c' || c = '\r'

/-- Arduino `String::trim()`: strip leading and trailing whitespace. -/
def arduinoTrim (l : List Char) : List Char :=
  ((l.dropWhile isTrimSpace).reverse.dropWhile isTrimSpace).reverse

/-- The four recognized command payloads of the MQTT command callback. -/
def cmdOn : List Char := "on".toList
def cmdReset : List Char := "reset".toList
def cmdRestart : List Char := "restart".toList
def cmdPing : List Char := "ping".toList

/-- The MQTT message callback `callback(topic, payload, length)`, with
`millis()` passed as `now`.  It first records inbound activity
(`lastMQTTMessage = millis()`), assembles and trims the payload, then
dispatches on the message; the topic is only logged. -/
def callback (topic payload : List Char) (now : Nat) (s : EspState) :
    EspState :=
  let _ := topic
  let s := { s with lastMQTTMessage := now }
  let message := arduinoTrim payload
  if message = cmdOn ∧ s.currentState = .idle then
    { s with eventStartTime := now, currentState := .waiting }
  else if message = cmdOn then
    s
  else if message = cmdReset then
    { s with currentState := .idle, coffeePouredCount := 0, rtc := initRTCData }
  else if message = cmdRestart then
    raiseRestart .user s
  else if message = cmdPing then
    s
  else
    s

/-- The heap-fragmentation computation of `checkMemory()`:
`uint8_t heapFragmentation = 100 - (maxFreeBlockSize * 100) / freeHeap;`.
The subtraction is carried out in `uint32_t` (the `int` product converts to
unsigned for the division) and the result is truncated to `uint8_t`; the
division is the one fallible step, so in this total embedding it is guarded
and yields `none` exactly when it would divide by zero. -/
def heapFragmentation (freeHeap maxFreeBlockSize : Nat) : Option Nat :=
  if freeHeap = 0 then none
  else some ((100 + (U32 - maxFreeBlockSize * 100 / freeHeap % U32)) % U32 % 256)

/-- Function `checkMemory()`, with `millis()` passed as `now` and the two heap
readings passed as `freeHeap` / `maxFreeBlockSize`; `none` when the
fragmentation computation divides by zero. -/
def checkMemory (now freeHeap maxFreeBlockSize : Nat) (s : EspState) :
    Option EspState :=
  if timeElapsed s.lastMemoryCheck memoryCheckInterval now then
    let s := { s with lastMemoryCheck := now }
    (heapFragmentation freeHeap maxFreeBlockSize).map fun frag =>
      let s := if freeHeap < minFreeHeap then raiseRestart .memory s else s
      if frag > 85 then raiseRestart .memory s else s
  else
    some s

/-- The module state right after `setup()` on a cold boot (no valid RTC
data): freshly initialized record, all timing variables at the boot
instant (taken as 0), no pending restart, machine idle. -/
def bootState : EspState :=
  { currentState := .idle
    eventStartTime := 0
    lastAliveTime := 0
    lastMemoryCheck := 0
    lastWiFiCheck := 0
    lastMQTTAttempt := 0
    lastSuccessfulMetrics := 0
    lastMQTTMessage := 0
    bootTime := 0
    lastRTCUpdate := 0
    coffeePouredCount := 0
    systemHealthy := true
    consecutiveFailures := 0
    wifiReconnectCount := 0
    mqttReconnectCount := 0
    forceRestart := false
    pendingRestartReason := .unknown
    rtc := initRTCData }

/-! ### Helper lemmas -/

theorem U32_eq_pow : U32 = 2 ^ 32 := rfl

theorem wsub_toInt (a b : Nat) (hb : b < U32) :
    ((wsub a b : Nat) : Int) = ((a : Int) - b) % (U32 : Int) := by
  have hble : b ≤ U32 := Nat.le_of_lt hb
  unfold wsub
  rw [Nat.mod_eq_of_lt hb]
  push_cast [hble]
  simp only [U32]
  omega

theorem wsub_of_le (a b : Nat) (hba : b ≤ a) (ha : a < U32) :
    wsub a b = a - b := by
  have hb : b < U32 := Nat.lt_of_le_of_lt hba ha
  unfold wsub
  rw [Nat.mod_eq_of_lt hb]
  simp only [U32] at *
  omega

/-! ### C2: the overflow-safe elapsed predicate -/

/-- C2 (counterexample): `timeElapsed` does NOT return true iff the wrapped
difference `(now - since) mod 2^32` is at least `interval`.  At
`since = 10`, `now = 5` (a wrapped clock), `interval = 2^32 - 1`, the
function returns true (wrap disjunct) although the wrapped difference
`2^32 - 5` is smaller than the interval. -/
theorem timeElapsed_not_iff_wrapped_diff :
    timeElapsed 10 (U32 - 1) 5 = true ∧
    ¬ (((U32 - 1 : Nat) : Int) ≤ ((5 : Int) - 10) % (U32 : Int)) := by
  constructor
  · decide
  · decide

/-- C2 (amended): for all `since`, `interval`, `now` over wrapping unsigned
32-bit millisecond arithmetic, `timeElapsed since interval` evaluated at
`now` returns true iff the wrapped difference `(now - since) mod 2^32` is
at least `interval` OR `now < since`; in particular it always returns true
when `now < since` (the wrap case). -/
theorem timeElapsed_iff_wrapped_diff_or_wrap (since interval now : Nat)
    (hs : since < U32) (_hn : now < U32) :
    (timeElapsed since interval now = true ↔
      ((interval : Int) ≤ ((now : Int) - since) % (U32 : Int) ∨ now < since)) ∧
    (now < since → timeElapsed since interval now = true) := by
  have hw := wsub_toInt now since hs
  constructor
  · unfold timeElapsed
    simp only [Bool.or_eq_true, decide_eq_true_eq]
    constructor
    · rintro (h | h)
      · exact Or.inl (by rw [← hw]; exact_mod_cast h)
      · exact Or.inr h
    · rintro (h | h)
      · refine Or.inl ?_
        have : ((interval : Int)) ≤ ((wsub now since : Nat) : Int) := by
          rw [hw]; exact h
        exact_mod_cast this
      · exact Or.inr h
  · intro h
    unfold timeElapsed
    simp [h]

/-- C2 witness: the amended characterization applied at the exact wrap
boundary `since = 2^32 - 1`, `now = 0`, `interval = 1`. -/
theorem timeElapsed_iff_wrapped_diff_or_wrap_witness :
    (U32 - 1 < U32 ∧ 0 < U32) ∧
    (timeElapsed (U32 - 1) 1 0 = true ↔
      ((1 : Int) ≤ ((0 : Int) - (U32 - 1 : Nat)) % (U32 : Int) ∨ 0 < U32 - 1)) ∧
    timeElapsed (U32 - 1) 1 0 = true := by
  have h := timeElapsed_iff_wrapped_diff_or_wrap (U32 - 1) 1 0
    (by decide) (by decide)
  exact ⟨⟨by decide, by decide⟩, h.1, h.2 (by decide)⟩

/-! ### C3: totalRestarts versus the per-reason counters -/

theorem recordRestart_totalRestarts (reason : RestartReason) (sc : Nat)
    (r : RTCData) :
    (recordRestart reason sc r).totalRestarts = (r.totalRestarts + 1) % U32 := by
  cases r; cases reason <;> rfl

theorem reasonSum_recordRestart_unknown (sc : Nat) (r : RTCData) :
    reasonSum (recordRestart .unknown sc r) =
      r.userRestarts + r.watchdogRestarts + r.memoryRestarts +
      r.wifiRestarts + r.mqttRestarts + r.healthRestarts +
      (r.unknownRestarts + 1) % U32 := by
  cases r; rfl

theorem reasonSum_recordRestart_user (sc : Nat) (r : RTCData) :
    reasonSum (recordRestart .user sc r) =
      (r.userRestarts + 1) % U32 + r.watchdogRestarts + r.memoryRestarts +
      r.wifiRestarts + r.mqttRestarts + r.healthRestarts +
      r.unknownRestarts := by
  cases r; rfl

theorem reasonSum_recordRestart_watchdog (sc : Nat) (r : RTCData) :
    reasonSum (recordRestart .watchdog sc r) =
      r.userRestarts + (r.watchdogRestarts + 1) % U32 + r.memoryRestarts +
      r.wifiRestarts + r.mqttRestarts + r.healthRestarts +
      r.unknownRestarts := by
  cases r; rfl

theorem reasonSum_recordRestart_memory (sc : Nat) (r : RTCData) :
    reasonSum (recordRestart .memory sc r) =
      r.userRestarts + r.watchdogRestarts + (r.memoryRestarts + 1) % U32 +
      r.wifiRestarts + r.mqttRestarts + r.healthRestarts +
      r.unknownRestarts := by
  cases r; rfl

theorem reasonSum_recordRestart_wifi (sc : Nat) (r : RTCData) :
    reasonSum (recordRestart .wifi sc r) =
      r.userRestarts + r.watchdogRestarts + r.memoryRestarts +
      (r.wifiRestarts + 1) % U32 + r.mqttRestarts + r.healthRestarts +
      r.unknownRestarts := by
  cases r; rfl

theorem reasonSum_recordRestart_mqtt (sc : Nat) (r : RTCData) :
    reasonSum (recordRestart .mqtt sc r) =
      r.userRestarts + r.watchdogRestarts + r.memoryRestarts +
      r.wifiRestarts + (r.mqttRestarts + 1) % U32 + r.healthRestarts +
      r.unknownRestarts := by
  cases r; rfl

theorem reasonSum_recordRestart_health (sc : Nat) (r : RTCData) :
    reasonSum (recordRestart .health sc r) =
      r.userRestarts + r.watchdogRestarts + r.memoryRestarts +
      r.wifiRestarts + r.mqttRestarts + (r.healthRestarts + 1) % U32 +
      r.unknownRestarts := by
  cases r; rfl

theorem reasonSum_recordRestart_powerOn (sc : Nat) (r : RTCData) :
    reasonSum (recordRestart .powerOn sc r) =
      r.userRestarts + r.watchdogRestarts + r.memoryRestarts +
      r.wifiRestarts + r.mqttRestarts + r.healthRestarts +
      (r.unknownRestarts + 1) % U32 := by
  cases r; rfl

theorem checkpointRTC_fst_totalRestarts (r : RTCData) (sc : Nat) :
    (checkpointRTC r sc).1.totalRestarts = r.totalRestarts := by
  cases r; rfl

theorem checkpointRTC_fst_reasonSum (r : RTCData) (sc : Nat) :
    reasonSum (checkpointRTC r sc).1 = reasonSum r := by
  cases r; simp only [checkpointRTC, writeRTCData, reasonSum]

/-- Preservation of the counter invariant by one `recordRestart` call. -/
theorem recordRestart_invariant (reason : RestartReason) (sc : Nat)
    (r : RTCData) (h : r.totalRestarts = reasonSum r % U32) :
    (recordRestart reason sc r).totalRestarts =
      reasonSum (recordRestart reason sc r) % U32 := by
  simp only [reasonSum] at h
  cases reason <;>
    rw [recordRestart_totalRestarts] <;>
    simp only [reasonSum_recordRestart_unknown, reasonSum_recordRestart_user,
      reasonSum_recordRestart_watchdog, reasonSum_recordRestart_memory,
      reasonSum_recordRestart_wifi, reasonSum_recordRestart_mqtt,
      reasonSum_recordRestart_health, reasonSum_recordRestart_powerOn] <;>
    simp only [U32] at * <;> omega

/-- Preservation of the counter invariant by every session operation. -/
theorem applyRTCOp_invariant (p : RTCData × Nat) (op : RTCOp)
    (h : p.1.totalRestarts = reasonSum p.1 % U32) :
    (applyRTCOp p op).1.totalRestarts = reasonSum (applyRTCOp p op).1 % U32 := by
  cases op with
  | record reason => exact recordRestart_invariant reason p.2 p.1 h
  | checkpoint =>
      show (checkpointRTC p.1 p.2).1.totalRestarts =
        reasonSum (checkpointRTC p.1 p.2).1 % U32
      rw [checkpointRTC_fst_totalRestarts, checkpointRTC_fst_reasonSum]
      exact h
  | reset =>
      show initRTCData.totalRestarts = reasonSum initRTCData % U32
      decide
  | pour => exact h

theorem foldl_RTCOp_invariant (ops : List RTCOp) :
    ∀ p : RTCData × Nat, p.1.totalRestarts = reasonSum p.1 % U32 →
      (ops.foldl applyRTCOp p).1.totalRestarts =
        reasonSum (ops.foldl applyRTCOp p).1 % U32 := by
  induction ops with
  | nil => intro p h; exact h
  | cons op rest ih =>
      intro p h
      rw [List.foldl_cons]
      exact ih _ (applyRTCOp_invariant p op h)

/-- C3 (amended): starting from an initialized record, after any sequence of
`recordRestart` calls with any reasons, interleaved with checkpoints,
pours and resets, the persisted `totalRestarts` equals the sum of the
SEVEN per-reason counter fields of the record (reduced mod 2^32, the width
of the counters); a reset independently reinitializes all counters to
zero, including `totalRestarts`. -/
theorem runRTC_total_eq_reasonSum :
    (∀ ops : List RTCOp,
        (runRTC ops).1.totalRestarts = reasonSum (runRTC ops).1 % U32) ∧
    (∀ ops : List RTCOp, runRTC (ops ++ [RTCOp.reset]) = (initRTCData, 0)) ∧
    initRTCData.totalRestarts = 0 ∧ initRTCData.userRestarts = 0 ∧
    initRTCData.watchdogRestarts = 0 ∧ initRTCData.memoryRestarts = 0 ∧
    initRTCData.wifiRestarts = 0 ∧ initRTCData.mqttRestarts = 0 ∧
    initRTCData.healthRestarts = 0 ∧ initRTCData.unknownRestarts = 0 := by
  refine ⟨?_, ?_, rfl, rfl, rfl, rfl, rfl, rfl, rfl, rfl⟩
  · intro ops
    exact foldl_RTCOp_invariant ops (initRTCData, 0) (by decide)
  · intro ops
    rw [runRTC, List.foldl_append]
    rfl

/-- C3 (counterexample): the record has no dedicated PowerOn counter, so the
sum over the counters associated to the EIGHT restart reasons counts
`unknownRestarts` twice; after recording one PowerOn restart from a fresh
record, `totalRestarts = 1` while that eight-reason sum is 2. -/
theorem powerOn_counter_shared_with_unknown :
    (runRTC [RTCOp.record .powerOn]).1.totalRestarts = 1 ∧
    sumEightReasonCounters (runRTC [RTCOp.record .powerOn]).1 = 2 ∧
    (runRTC [RTCOp.record .powerOn]).1.totalRestarts ≠
      sumEightReasonCounters (runRTC [RTCOp.record .powerOn]).1 := by
  refine ⟨rfl, rfl, by decide⟩

/-! ### C4: the restart-request slot -/

/-- C4 (counterexample): a second restart-request writer is NOT a no-op: it
overwrites the first-recorded reason.  After the health monitor records
reason Health and then a user restart command records reason User, the
pending reason is User, not the first-recorded Health. -/
theorem restartRequest_second_writer_overwrites :
    (raiseRestart .user (raiseRestart .health bootState)).pendingRestartReason =
      RestartReason.user ∧
    (raiseRestart .health bootState).forceRestart = true ∧
    RestartReason.user ≠ RestartReason.health :=
  ⟨rfl, rfl, by decide⟩

/-- C4 (amended): the restart request is a single slot holding one
`(reason, requested)` pair, but later writers before the loop drains the
flag OVERWRITE it: after any sequence of restart requests the pending
reason is the LAST writer's reason (which is therefore the reason
committed at the restart), and the flag is set. -/
theorem restartRequest_last_writer_wins (s : EspState)
    (rs : List RestartReason) (reason : RestartReason) :
    ((rs ++ [reason]).foldl (fun t rsn => raiseRestart rsn t) s).pendingRestartReason
        = reason ∧
    ((rs ++ [reason]).foldl (fun t rsn => raiseRestart rsn t) s).forceRestart
        = true := by
  rw [List.foldl_append]
  exact ⟨rfl, rfl⟩

/-! ### C1: recordRestart versus the checkpointed all-time brew count -/

/-- C1 (code bug): `recordRestart` ASSIGNS the session brew count to
`coffeePouredTotal` instead of adding it.  After a checkpoint has folded a
session count of 5 into the record (so `coffeePouredTotal = 5`, session
count reset to 0) and one further brew (session count 1), `recordRestart`
leaves `coffeePouredTotal = 1`, not `5 + 1`: the all-time total
accumulated by the prior checkpoint is lost. -/
theorem recordRestart_discards_checkpointed_total :
    ((checkpointRTC initRTCData 5).1).coffeePouredTotal = 5 ∧
    (checkpointRTC initRTCData 5).2 = 0 ∧
    (recordRestart .user 1 (checkpointRTC initRTCData 5).1).coffeePouredTotal
      = 1 ∧
    (recordRestart .user 1 (checkpointRTC initRTCData 5).1).coffeePouredTotal
      ≠ ((checkpointRTC initRTCData 5).1).coffeePouredTotal + 1 :=
  ⟨rfl, rfl, rfl, by decide⟩

/-! ### C10: the heap-fragmentation division -/

/-- C10 (counterexample): the error branch of the fragmentation division IS
reachable: at a heap reading of `freeHeap = 0` (nothing in `checkMemory`
constrains the reading before the division — the low-memory comparison
happens only after it), the guarded division yields `none`. -/
theorem checkMemory_divides_by_zero_at_zero_heap :
    checkMemory 300000 0 0 bootState = none := by
  rfl

/-- C10 (amended): the guarded fragmentation division in `checkMemory` fails
exactly when the 5-minute check actually runs and the observed `freeHeap`
is zero; for every nonzero heap reading the error branch is unreachable. -/
theorem checkMemory_none_iff_zero_heap (now freeHeap maxFreeBlockSize : Nat)
    (s : EspState) :
    checkMemory now freeHeap maxFreeBlockSize s = none ↔
      (timeElapsed s.lastMemoryCheck memoryCheckInterval now = true ∧
        freeHeap = 0) := by
  unfold checkMemory heapFragmentation
  by_cases h : timeElapsed s.lastMemoryCheck memoryCheckInterval now = true
  · by_cases hf : freeHeap = 0 <;> simp [h, hf]
  · rw [Bool.not_eq_true] at h
    simp [h]

/-! ### C5: primary-link failure escalation -/

/-- Effect of one failed reconnection round while the threshold is not yet
reached: the consecutive-failure counter advances by 2 (one increment in
`setupWiFi`, one in `checkWiFiConnection`) and one connection attempt is
counted. -/
theorem failedWiFiRound_below (now : Nat) (s : EspState)
    (ht : timeElapsed s.lastWiFiCheck wifiCheckInterval now = true)
    (hcf : s.consecutiveFailures + 1 + 1 < 5) :
    failedWiFiRound now s =
      { s with lastWiFiCheck := now, systemHealthy := false,
               consecutiveFailures := s.consecutiveFailures + 1 + 1,
               wifiReconnectCount := s.wifiReconnectCount + 1 } := by
  unfold failedWiFiRound checkWiFiConnection setupWiFiResult
  simp only [ht, if_true, Bool.false_eq_true, if_false]
  rw [if_neg (Nat.not_le.mpr hcf)]

/-- Effect of one failed reconnection round once the (doubly-incremented)
consecutive-failure counter reaches the threshold: the restart request is
raised with reason `RESTART_WIFI`. -/
theorem failedWiFiRound_raise (now : Nat) (s : EspState)
    (ht : timeElapsed s.lastWiFiCheck wifiCheckInterval now = true)
    (hcf : 5 ≤ s.consecutiveFailures + 1 + 1) :
    failedWiFiRound now s =
      raiseRestart .wifi
        { s with lastWiFiCheck := now, systemHealthy := false,
                 consecutiveFailures := s.consecutiveFailures + 1 + 1,
                 wifiReconnectCount := s.wifiReconnectCount + 1 } := by
  unfold failedWiFiRound checkWiFiConnection setupWiFiResult
  simp only [ht, if_true, Bool.false_eq_true, if_false]
  rw [if_pos hcf]

/-- C5 (counterexample): after only THREE consecutive failed primary-link
reconnection rounds from the boot state — fewer than the five the claim
requires — the forced-restart request with reason `RESTART_WIFI` is
already raised, because each failed round increments the
consecutive-failure counter twice. -/
theorem wifi_restart_after_three_failures :
    (failedWiFiRound 90000 (failedWiFiRound 60000
        (failedWiFiRound 30000 bootState))).forceRestart = true ∧
    (failedWiFiRound 90000 (failedWiFiRound 60000
        (failedWiFiRound 30000 bootState))).pendingRestartReason =
      RestartReason.wifi ∧
    (failedWiFiRound 90000 (failedWiFiRound 60000
        (failedWiFiRound 30000 bootState))).wifiReconnectCount = 3 ∧
    (failedWiFiRound 60000 (failedWiFiRound 30000 bootState)).forceRestart
      = false :=
  ⟨rfl, rfl, rfl, rfl⟩

/-- C5 (amended): starting from a state with a zeroed consecutive-failure
counter and no pending request, after exactly THREE consecutive failed
primary-link connection attempts with no intervening success — and not
after fewer — exactly one restart request with reason `RESTART_WIFI` is
raised (each failed round increments `consecutiveFailures` twice: once
inside `setupWiFi` and once in `checkWiFiConnection`, so the `>= 5` test
fires on the third failed attempt). -/
theorem wifi_escalation_on_third_failed_attempt (s : EspState)
    (t1 t2 t3 : Nat)
    (hcf : s.consecutiveFailures = 0) (hfr : s.forceRestart = false)
    (h1 : timeElapsed s.lastWiFiCheck wifiCheckInterval t1 = true)
    (h2 : timeElapsed t1 wifiCheckInterval t2 = true)
    (h3 : timeElapsed t2 wifiCheckInterval t3 = true) :
    (failedWiFiRound t1 s).forceRestart = false ∧
    (failedWiFiRound t2 (failedWiFiRound t1 s)).forceRestart = false ∧
    (failedWiFiRound t3 (failedWiFiRound t2
        (failedWiFiRound t1 s))).forceRestart = true ∧
    (failedWiFiRound t3 (failedWiFiRound t2
        (failedWiFiRound t1 s))).pendingRestartReason = RestartReason.wifi ∧
    (failedWiFiRound t3 (failedWiFiRound t2 (failedWiFiRound t1 s))).wifiReconnectCount
      = s.wifiReconnectCount + 1 + 1 + 1 := by
  have e1 : failedWiFiRound t1 s =
      { s with lastWiFiCheck := t1, systemHealthy := false,
               consecutiveFailures := s.consecutiveFailures + 1 + 1,
               wifiReconnectCount := s.wifiReconnectCount + 1 } :=
    failedWiFiRound_below t1 s h1 (by omega)
  have e2 : failedWiFiRound t2 (failedWiFiRound t1 s) =
      { s with lastWiFiCheck := t2, systemHealthy := false,
               consecutiveFailures := s.consecutiveFailures + 1 + 1 + 1 + 1,
               wifiReconnectCount := s.wifiReconnectCount + 1 + 1 } := by
    rw [e1]
    exact failedWiFiRound_below t2 _ h2 (by simp; omega)
  have e3 : failedWiFiRound t3 (failedWiFiRound t2 (failedWiFiRound t1 s)) =
      raiseRestart .wifi
        { s with lastWiFiCheck := t3, systemHealthy := false,
                 consecutiveFailures := s.consecutiveFailures + 1 + 1 + 1 + 1 + 1 + 1,
                 wifiReconnectCount := s.wifiReconnectCount + 1 + 1 + 1 } := by
    rw [e2]
    exact failedWiFiRound_raise t3 _ h3 (by simp)
  rw [e3, e2, e1]
  exact ⟨hfr, hfr, rfl, rfl, rfl⟩

/-- C5 witness: the amended escalation applied to the boot state with the
periodic checks at 30, 60 and 90 seconds. -/
theorem wifi_escalation_witness :
    (bootState.consecutiveFailures = 0 ∧ bootState.forceRestart = false ∧
      timeElapsed bootState.lastWiFiCheck wifiCheckInterval 30000 = true ∧
      timeElapsed 30000 wifiCheckInterval 60000 = true ∧
      timeElapsed 60000 wifiCheckInterval 90000 = true) ∧
    (failedWiFiRound 60000 (failedWiFiRound 30000 bootState)).forceRestart
        = false ∧
    (failedWiFiRound 90000 (failedWiFiRound 60000
        (failedWiFiRound 30000 bootState))).forceRestart = true := by
  have h := wifi_escalation_on_third_failed_attempt bootState 30000 60000 90000
    rfl rfl (by decide) (by decide) (by decide)
  exact ⟨⟨rfl, rfl, by decide, by decide, by decide⟩, h.2.1, h.2.2.1⟩

/-! ### C6: the health-monitor daily rollover -/

/-- C6 (counterexample): the 24-hour rollover of `performHealthCheck` is NOT
expressed through the overflow-safe elapsed predicate: with the rollover
timestamp `bootTime = 2^32 - 100` and the clock freshly wrapped to
`now = 50`, `timeElapsed bootTime 86400000` is true (wrap disjunct), none
of the four ordered checks trigger, yet the raw wrapped comparison
`now - bootTime > 86400000` is false and the reconnect counters are NOT
zeroed. -/
theorem rollover_not_via_elapsed_predicate :
    timeElapsed (U32 - 100) 86400000 50 = true ∧
    (performHealthCheck 50
        { bootState with lastSuccessfulMetrics := 40, lastMQTTMessage := 40,
                         wifiReconnectCount := 1, mqttReconnectCount := 1,
                         bootTime := U32 - 100 }).wifiReconnectCount = 1 ∧
    (performHealthCheck 50
        { bootState with lastSuccessfulMetrics := 40, lastMQTTMessage := 40,
                         wifiReconnectCount := 1, mqttReconnectCount := 1,
                         bootTime := U32 - 100 }).mqttReconnectCount = 1 ∧
    (performHealthCheck 50
        { bootState with lastSuccessfulMetrics := 40, lastMQTTMessage := 40,
                         wifiReconnectCount := 1, mqttReconnectCount := 1,
                         bootTime := U32 - 100 }).forceRestart = false := by
  refine ⟨by decide, ?_, ?_, ?_⟩ <;> rfl

/-- C6 (amended): on a health check where none of the four ordered checks
trigger and the raw wrapped difference `now - bootTime` (32-bit unsigned
subtraction, not the `timeElapsed` predicate) exceeds 24 hours, both
cumulative reconnect counters are zeroed and the rollover timestamp is
reset to `now`, while the persisted record — `totalRestarts` included —
and the pending-restart flag are unaffected. -/
theorem rollover_zeroes_reconnect_counters (now : Nat) (s : EspState)
    (h1 : timeElapsed s.lastSuccessfulMetrics maxSilentTime now = false)
    (h2 : timeElapsed s.lastMQTTMessage maxMQTTSilentTime now = false)
    (h3 : s.wifiReconnectCount ≤ 20) (h4 : s.mqttReconnectCount ≤ 50)
    (h5 : wsub now s.bootTime > 86400000) :
    (performHealthCheck now s).wifiReconnectCount = 0 ∧
    (performHealthCheck now s).mqttReconnectCount = 0 ∧
    (performHealthCheck now s).bootTime = now ∧
    (performHealthCheck now s).rtc = s.rtc ∧
    (performHealthCheck now s).rtc.totalRestarts = s.rtc.totalRestarts ∧
    (performHealthCheck now s).forceRestart = s.forceRestart := by
  unfold performHealthCheck
  simp only [h1, h2, Bool.false_eq_true, if_false]
  rw [if_neg (Nat.not_lt.mpr h3), if_neg (Nat.not_lt.mpr h4), if_pos h5]
  exact ⟨rfl, rfl, rfl, rfl, rfl, rfl⟩

/-- C6 witness: the rollover applied one day plus 100 seconds after boot,
with recent metrics and MQTT activity and small reconnect counts. -/
theorem rollover_witness :
    (timeElapsed 86499990 maxSilentTime 86500000 = false ∧
      timeElapsed 86499990 maxMQTTSilentTime 86500000 = false ∧
      (5 : Nat) ≤ 20 ∧ (7 : Nat) ≤ 50 ∧ wsub 86500000 0 > 86400000) ∧
    (performHealthCheck 86500000
        { bootState with lastSuccessfulMetrics := 86499990,
                         lastMQTTMessage := 86499990,
                         wifiReconnectCount := 5,
                         mqttReconnectCount := 7 }).wifiReconnectCount = 0 ∧
    (performHealthCheck 86500000
        { bootState with lastSuccessfulMetrics := 86499990,
                         lastMQTTMessage := 86499990,
                         wifiReconnectCount := 5,
                         mqttReconnectCount := 7 }).mqttReconnectCount = 0 := by
  have h := rollover_zeroes_reconnect_counters 86500000
    { bootState with lastSuccessfulMetrics := 86499990,
                     lastMQTTMessage := 86499990,
                     wifiReconnectCount := 5, mqttReconnectCount := 7 }
    (by decide) (by decide) (by decide) (by decide) (by decide)
  exact ⟨⟨by decide, by decide, by decide, by decide, by decide⟩, h.1, h.2.1⟩

/-! ### C8: the brew cycle -/

theorem timeElapsed_no_wrap (startTime interval now : Nat)
    (hle : startTime ≤ now) (hlt : now < U32) :
    timeElapsed startTime interval now = decide (interval ≤ now - startTime) := by
  unfold timeElapsed
  rw [wsub_of_le now startTime hle hlt]
  simp [Nat.not_lt.mpr hle]

theorem callback_on_from_idle (topic : List Char) (t0 : Nat) (s : EspState)
    (hidle : s.currentState = .idle) :
    callback topic cmdOn t0 s =
      { s with lastMQTTMessage := t0, eventStartTime := t0,
               currentState := .waiting } := by
  simp only [callback]
  rw [if_pos ⟨by decide, hidle⟩]

/-- C8: from `Idle`, an MQTT `on` command at time `t0` moves the brew state
machine to `WAITING` (the heating phase) with `eventStartTime = t0`; a
later `handleCoffeeProcess` tick at time `t` leaves the state unchanged
while less than the configured 150000 ms heat duration has elapsed, and
once at least 150000 ms have elapsed it pours (the `POURING` dispense
completes within `pourCoffee`), increments the session brew count by
exactly 1, and returns to `IDLE`. -/
theorem brew_cycle_one_increment (s : EspState) (topic : List Char)
    (t0 t : Nat) (hidle : s.currentState = .idle) (h0 : t0 ≤ t)
    (ht : t < U32) (hc : s.coffeePouredCount + 1 < U32) :
    ((callback topic cmdOn t0 s).currentState = MachineState.waiting ∧
      (callback topic cmdOn t0 s).eventStartTime = t0 ∧
      (callback topic cmdOn t0 s).coffeePouredCount = s.coffeePouredCount) ∧
    (t - t0 < coffeeWaitTime →
      handleCoffeeProcess t (callback topic cmdOn t0 s) =
        callback topic cmdOn t0 s) ∧
    (coffeeWaitTime ≤ t - t0 →
      (handleCoffeeProcess t (callback topic cmdOn t0 s)).currentState =
          MachineState.idle ∧
      (handleCoffeeProcess t (callback topic cmdOn t0 s)).coffeePouredCount =
          s.coffeePouredCount + 1) := by
  have hck := callback_on_from_idle topic t0 s hidle
  have hte : timeElapsed t0 coffeeWaitTime t = decide (coffeeWaitTime ≤ t - t0) :=
    timeElapsed_no_wrap t0 coffeeWaitTime t h0 ht
  refine ⟨by rw [hck]; exact ⟨rfl, rfl, rfl⟩, ?_, ?_⟩
  · intro hlt2
    rw [hck]
    unfold handleCoffeeProcess
    rw [if_neg]
    intro hcond
    have := hcond.2
    rw [hte] at this
    exact absurd (of_decide_eq_true this) (Nat.not_le.mpr hlt2)
  · intro hge
    rw [hck]
    unfold handleCoffeeProcess
    rw [if_pos ⟨rfl, by rw [hte]; exact decide_eq_true hge⟩]
    refine ⟨rfl, ?_⟩
    exact Nat.mod_eq_of_lt hc

/-- C8 witness: one full cycle from the boot state — command at 100 ms, no
transition at 150099 ms, pour at exactly 150100 ms with the session count
going from 0 to 1. -/
theorem brew_cycle_witness :
    (bootState.currentState = MachineState.idle ∧ (100 : Nat) ≤ 150100 ∧
      150100 < U32 ∧ bootState.coffeePouredCount + 1 < U32) ∧
    (callback [] cmdOn 100 bootState).currentState = MachineState.waiting ∧
    (handleCoffeeProcess 150100
        (callback [] cmdOn 100 bootState)).currentState = MachineState.idle ∧
    (handleCoffeeProcess 150100
        (callback [] cmdOn 100 bootState)).coffeePouredCount =
      bootState.coffeePouredCount + 1 := by
  have h := brew_cycle_one_increment bootState [] 100 150100 rfl
    (by decide) (by decide) (by decide)
  exact ⟨⟨rfl, by decide, by decide, by decide⟩, h.1.1,
    (h.2.2 (by decide)).1, (h.2.2 (by decide)).2⟩

/-! ### C7 helpers: the CRC32 algorithm -/

theorem byteBits_def (c : Nat) :
    byteBits c = [c.testBit 7, c.testBit 6, c.testBit 5, c.testBit 4,
      c.testBit 3, c.testBit 2, c.testBit 1, c.testBit 0] := rfl

theorem xor_mod_two_pow (x y n : Nat) :
    (x ^^^ y) % 2 ^ n = x % 2 ^ n ^^^ y % 2 ^ n := by
  apply Nat.eq_of_testBit_eq
  intro i
  simp only [Nat.testBit_mod_two_pow, Nat.testBit_xor]
  by_cases h : i < n <;> simp [h]

theorem xor_shiftLeft_distrib (x y k : Nat) :
    (x ^^^ y) <<< k = x <<< k ^^^ y <<< k := by
  apply Nat.eq_of_testBit_eq
  intro i
  simp only [Nat.testBit_shiftLeft, Nat.testBit_xor]
  by_cases h : k ≤ i <;> simp [h]

theorem crcStep_lt (c : Nat) (b : Bool) : crcStep c b < U32 := by
  simp only [crcStep]
  split
  · rw [U32_eq_pow]
    exact Nat.xor_lt_two_pow (Nat.mod_lt _ (by decide)) (by decide)
  · exact Nat.mod_lt _ (by decide)

theorem nat_xor_left_comm (a b c : Nat) : a ^^^ (b ^^^ c) = b ^^^ (a ^^^ c) := by
  rw [← Nat.xor_assoc, Nat.xor_comm a b, Nat.xor_assoc]

theorem crcStep_xor (c1 c2 : Nat) (b1 b2 : Bool) :
    crcStep (c1 ^^^ c2) (Bool.xor b1 b2) = crcStep c1 b1 ^^^ crcStep c2 b2 := by
  simp only [crcStep, Nat.testBit_xor, U32_eq_pow, xor_shiftLeft_distrib,
    xor_mod_two_pow]
  cases h1 : c1.testBit 31 <;> cases h2 : c2.testBit 31 <;>
    cases b1 <;> cases b2 <;>
    simp [Bool.xor, Nat.xor_assoc, Nat.xor_comm, nat_xor_left_comm,
      Nat.xor_self, Nat.xor_zero, Nat.zero_xor, Nat.xor_cancel_left,
      Nat.xor_cancel_right]

theorem crcByte_xor (c1 c2 b1 b2 : Nat) :
    crcByte (c1 ^^^ c2) (b1 ^^^ b2) = crcByte c1 b1 ^^^ crcByte c2 b2 := by
  simp only [crcByte, byteBits_def, Nat.testBit_xor, List.foldl_cons,
    List.foldl_nil]
  simp only [crcStep_xor]

theorem crcFold_xor (d1 : List Nat) : ∀ (d2 : List Nat) (c1 c2 : Nat),
    d1.length = d2.length →
    List.foldl crcByte (c1 ^^^ c2) (List.zipWith (fun a b => a ^^^ b) d1 d2) =
      List.foldl crcByte c1 d1 ^^^ List.foldl crcByte c2 d2 := by
  induction d1 with
  | nil =>
      intro d2 c1 c2 h
      cases d2 with
      | nil => simp
      | cons b m => simp at h
  | cons a l ih =>
      intro d2 c1 c2 h
      cases d2 with
      | nil => simp at h
      | cons b m =>
          simp only [List.zipWith_cons_cons, List.foldl_cons]
          rw [crcByte_xor]
          exact ih m _ _ (by simpa using h)

theorem crcByte_lt (c b : Nat) : crcByte c b < U32 := by
  simp only [crcByte, byteBits_def, List.foldl_cons, List.foldl_nil]
  exact crcStep_lt _ _

theorem crcFold_lt (d : List Nat) : ∀ c : Nat, c < U32 →
    List.foldl crcByte c d < U32 := by
  induction d with
  | nil => intro c h; simpa using h
  | cons a l ih =>
      intro c h
      rw [List.foldl_cons]
      exact ih _ (crcByte_lt _ _)

theorem calculateCRC32_lt (d : List Nat) : calculateCRC32 d < U32 :=
  crcFold_lt d 4294967295 (by decide)

theorem crcByte_zero_zero : crcByte 0 0 = 0 := by decide

theorem crcFold_zero_replicate (m : Nat) :
    List.foldl crcByte 0 (List.replicate m 0) = 0 := by
  induction m with
  | zero => rfl
  | succ n ih =>
      rw [List.replicate_succ, List.foldl_cons, crcByte_zero_zero]
      exact ih

theorem crcStep_false_ne_zero (c : Nat) (h0 : c ≠ 0) (hlt : c < U32) :
    crcStep c false ≠ 0 := by
  simp only [crcStep, Bool.xor_false]
  cases h : c.testBit 31 with
  | false =>
      simp only [Bool.false_eq_true, if_false]
      rw [Nat.testBit_to_div_mod] at h
      simp only [decide_eq_false_iff_not] at h
      rw [Nat.shiftLeft_eq]
      have h31 : (2 : Nat) ^ 31 = 2147483648 := by norm_num
      rw [h31] at h
      simp only [U32] at hlt ⊢
      norm_num
      omega
  | true =>
      simp only [if_true]
      intro heq
      have htb : (c <<< 1 % U32 ^^^ crcPoly).testBit 0 = false := by
        rw [heq]; exact Nat.zero_testBit 0
      rw [Nat.testBit_xor] at htb
      have h1 : (c <<< 1 % U32).testBit 0 = false := by
        rw [U32_eq_pow, Nat.testBit_mod_two_pow]
        simp [Nat.testBit_shiftLeft]
      have h2 : crcPoly.testBit 0 = true := by decide
      rw [h1, h2] at htb
      simp at htb

theorem crcByte_zero_ne_zero (x : Nat) (h0 : x ≠ 0) (hlt : x < U32) :
    crcByte x 0 ≠ 0 := by
  simp only [crcByte, byteBits_def, Nat.zero_testBit, List.foldl_cons,
    List.foldl_nil]
  have step : ∀ y : Nat, y ≠ 0 → y < U32 →
      crcStep y false ≠ 0 ∧ crcStep y false < U32 :=
    fun y hy hl => ⟨crcStep_false_ne_zero y hy hl, crcStep_lt y false⟩
  obtain ⟨n1, l1⟩ := step x h0 hlt
  obtain ⟨n2, l2⟩ := step _ n1 l1
  obtain ⟨n3, l3⟩ := step _ n2 l2
  obtain ⟨n4, l4⟩ := step _ n3 l3
  obtain ⟨n5, l5⟩ := step _ n4 l4
  obtain ⟨n6, l6⟩ := step _ n5 l5
  obtain ⟨n7, l7⟩ := step _ n6 l6
  obtain ⟨n8, l8⟩ := step _ n7 l7
  exact n8

set_option maxRecDepth 4000 in
theorem crcByte_byte_ne_zero : ∀ e : Fin 256, e.val ≠ 0 → crcByte 0 e.val ≠ 0 := by
  decide

theorem crcFold_zeros_ne (m : Nat) : ∀ x : Nat, x ≠ 0 → x < U32 →
    List.foldl crcByte x (List.replicate m 0) ≠ 0 := by
  induction m with
  | zero => intro x h _; simpa using h
  | succ n ih =>
      intro x h hlt
      rw [List.replicate_succ, List.foldl_cons]
      exact ih _ (crcByte_zero_ne_zero x h hlt) (crcByte_lt _ _)

theorem crcFold_single_ne_zero (k m e : Nat) (he : 0 < e) (he2 : e < 256) :
    List.foldl crcByte 0 (List.replicate k 0 ++ e :: List.replicate m 0) ≠ 0 := by
  rw [List.foldl_append, crcFold_zero_replicate, List.foldl_cons]
  exact crcFold_zeros_ne m _
    (crcByte_byte_ne_zero ⟨e, he2⟩ (Nat.pos_iff_ne_zero.mp he)) (crcByte_lt _ _)

theorem zipWith_xor_self (d : List Nat) :
    List.zipWith (fun a b => a ^^^ b) d d = List.replicate d.length 0 := by
  induction d with
  | nil => rfl
  | cons a l ih =>
      simp only [List.zipWith_cons_cons, Nat.xor_self, List.length_cons,
        List.replicate_succ, ih]

theorem zipWith_xor_flip (d : List Nat) : ∀ k e : Nat, k < d.length →
    List.zipWith (fun a b => a ^^^ b) (flipAt k e d) d =
      List.replicate k 0 ++ e :: List.replicate (d.length - k - 1) 0 := by
  induction d with
  | nil => intro k e h; simp at h
  | cons a l ih =>
      intro k e h
      cases k with
      | zero =>
          simp only [flipAt, List.getD_cons_zero, List.set,
            List.zipWith_cons_cons, List.length_cons, List.replicate,
            List.nil_append]
          rw [Nat.xor_comm a e, Nat.xor_cancel_right, zipWith_xor_self]
          have harith : l.length + 1 - 0 - 1 = l.length := by omega
          rw [harith]
      | succ n =>
          have hn : n < l.length := by
            simp only [List.length_cons] at h; omega
          have hrec := ih n e hn
          simp only [flipAt] at hrec
          simp only [flipAt, List.getD_cons_succ, List.set,
            List.zipWith_cons_cons, Nat.xor_self, List.length_cons,
            List.replicate_succ, List.cons_append]
          rw [hrec]
          have harith : l.length + 1 - (n + 1) - 1 = l.length - n - 1 := by omega
          rw [harith]

/-- Single-byte error detection of `calculateCRC32`: flipping any single
byte of the data (xor with a nonzero byte value) changes the CRC. -/
theorem calculateCRC32_flip_ne (d : List Nat) (k e : Nat) (hk : k < d.length)
    (he : 0 < e) (he2 : e < 256) :
    calculateCRC32 (flipAt k e d) ≠ calculateCRC32 d := by
  intro heq
  have hlen : (flipAt k e d).length = d.length := by
    simp [flipAt]
  have hx := crcFold_xor (flipAt k e d) d 4294967295 4294967295 hlen
  rw [Nat.xor_self] at hx
  have hx2 : List.foldl crcByte 0
      (List.zipWith (fun a b => a ^^^ b) (flipAt k e d) d) = 0 := by
    rw [hx]
    show calculateCRC32 (flipAt k e d) ^^^ calculateCRC32 d = 0
    rw [heq, Nat.xor_self]
  rw [zipWith_xor_flip d k e hk] at hx2
  exact crcFold_single_ne_zero k _ e he he2 hx2

theorem le4_length (x : Nat) : (le4 x).length = 4 := rfl

theorem dataBytes_length (r : RTCData) : r.dataBytes.length = 40 := by
  cases r
  simp [RTCData.dataBytes, le4]

theorem writeRTCData_dataBytes (r : RTCData) :
    (writeRTCData r).dataBytes = r.dataBytes := by
  cases r
  simp only [writeRTCData, RTCData.dataBytes]

theorem writeRTCData_crc32 (r : RTCData) :
    (writeRTCData r).crc32 = calculateCRC32 r.dataBytes := by
  cases r
  simp only [writeRTCData]

theorem persistBlock_eq (r : RTCData) :
    persistBlock r = le4 (calculateCRC32 r.dataBytes) ++ r.dataBytes := by
  unfold persistBlock RTCData.block
  rw [writeRTCData_crc32, writeRTCData_dataBytes]

theorem le32val_le4 (x : Nat) (h : x < U32) : le32val (le4 x) = x := by
  simp only [le4, le32val, List.getD_cons_zero, List.getD_cons_succ]
  simp only [U32] at h
  omega

/-- Round-trip: a block persisted by `writeRTCData` always validates. -/
theorem validBlock_persistBlock (r : RTCData) :
    validBlock (persistBlock r) = true := by
  rw [persistBlock_eq]
  unfold validBlock
  rw [List.drop_left' (le4_length _), List.take_left' (le4_length _),
    le32val_le4 _ (calculateCRC32_lt _)]
  simp

theorem xor_ne_self_of_pos (a e : Nat) (he : 0 < e) : a ^^^ e ≠ a := by
  intro h
  have h2 : a ^^^ (a ^^^ e) = a ^^^ a := by rw [h]
  rw [Nat.xor_cancel_left, Nat.xor_self] at h2
  omega

theorem le32val_flipAt_ne (x i e : Nat) (hx : x < U32) (hi : i < 4)
    (he : 0 < e) (he2 : e < 256) :
    le32val (flipAt i e (le4 x)) ≠ x := by
  have h256 : (256 : Nat) = 2 ^ 8 := by norm_num
  have hlt : ∀ b : Nat, b < 256 → b ^^^ e < 256 := by
    intro b hb2
    rw [h256] at hb2 he2 ⊢
    exact Nat.xor_lt_two_pow hb2 he2
  have k0 := xor_ne_self_of_pos (x % 256) e he
  have k1 := xor_ne_self_of_pos (x / 256 % 256) e he
  have k2 := xor_ne_self_of_pos (x / 65536 % 256) e he
  have k3 := xor_ne_self_of_pos (x / 16777216 % 256) e he
  have m0 := hlt (x % 256) (Nat.mod_lt _ (by norm_num))
  have m1 := hlt (x / 256 % 256) (Nat.mod_lt _ (by norm_num))
  have m2 := hlt (x / 65536 % 256) (Nat.mod_lt _ (by norm_num))
  have m3 := hlt (x / 16777216 % 256) (Nat.mod_lt _ (by norm_num))
  simp only [U32] at hx
  interval_cases i <;>
    simp only [flipAt, le4, List.getD_cons_zero, List.getD_cons_succ,
      List.set, le32val] <;>
    omega

theorem flipAt_append_left (i e : Nat) (l1 l2 : List Nat)
    (h : i < l1.length) :
    flipAt i e (l1 ++ l2) = flipAt i e l1 ++ l2 := by
  unfold flipAt
  rw [List.getD_append _ _ _ _ h, List.set_append_left _ _ h]

theorem flipAt_append_right (i e : Nat) (l1 l2 : List Nat)
    (h : l1.length ≤ i) :
    flipAt i e (l1 ++ l2) = l1 ++ flipAt (i - l1.length) e l2 := by
  unfold flipAt
  rw [List.getD_append_right _ _ _ _ h, List.set_append_right _ _ h]

theorem flipAt_length (i e : Nat) (l : List Nat) :
    (flipAt i e l).length = l.length := by
  simp [flipAt]

/-- Flipping any single byte of a persisted block makes validation fail. -/
theorem validBlock_flip_false (r : RTCData) (i e : Nat) (hi : i < 44)
    (he : 0 < e) (he2 : e < 256) :
    validBlock (flipAt i e (persistBlock r)) = false := by
  rw [persistBlock_eq]
  by_cases hc : i < 4
  · rw [flipAt_append_left i e _ _ (by rw [le4_length]; exact hc)]
    unfold validBlock
    rw [List.drop_left' (by rw [flipAt_length, le4_length]),
      List.take_left' (by rw [flipAt_length, le4_length])]
    simp only [decide_eq_false_iff_not]
    intro hbad
    exact le32val_flipAt_ne (calculateCRC32 r.dataBytes) i e
      (calculateCRC32_lt _) hc he he2 hbad.symm
  · have hc4 : 4 ≤ i := Nat.not_lt.mp hc
    rw [flipAt_append_right i e _ _ (by rw [le4_length]; exact hc4)]
    unfold validBlock
    rw [List.drop_left' (le4_length _), List.take_left' (le4_length _),
      le32val_le4 _ (calculateCRC32_lt _)]
    simp only [le4_length]
    simp only [decide_eq_false_iff_not]
    exact calculateCRC32_flip_ne r.dataBytes (i - 4) e
      (by rw [dataBytes_length]; omega) he he2

/-- C7: checksum round-trip.  For every record contents, persisting the
record (`writeRTCData` recomputes the CRC32 over every byte after the
checksum field) and reading the identical block back validates
(`readRTCData` accepts); and flipping any single byte of the persisted
44-byte block makes the validation fail (`load` returns none). -/
theorem checksum_roundtrip_and_single_flip (r : RTCData) :
    validBlock (persistBlock r) = true ∧
    (∀ i, i < 44 → ∀ e, 0 < e → e < 256 →
      validBlock (flipAt i e (persistBlock r)) = false) :=
  ⟨validBlock_persistBlock r,
   fun i hi e he he2 => validBlock_flip_false r i e hi he he2⟩

/-- C7 witness: the round-trip and a concrete flip (byte 5, xor mask 7) on
the freshly initialized record. -/
theorem checksum_roundtrip_witness :
    validBlock (persistBlock initRTCData) = true ∧
    ((5 : Nat) < 44 ∧ (0 : Nat) < 7 ∧ (7 : Nat) < 256) ∧
    validBlock (flipAt 5 7 (persistBlock initRTCData)) = false := by
  have h := checksum_roundtrip_and_single_flip initRTCData
  exact ⟨h.1, ⟨by decide, by decide, by decide⟩,
    h.2 5 (by decide) 7 (by decide) (by decide)⟩

/-! ### C9: the MQTT callback frame -/

/-- C9: every invocation of the MQTT command callback — for any topic and
any payload — sets `lastMQTTMessage` (the inbound-activity timestamp
consulted by the health monitor) to the current time before dispatching on
the trimmed payload; for an unrecognized payload no other system state
changes, and likewise the recognized `ping` payload changes nothing else. -/
theorem callback_frame (topic payload : List Char) (now : Nat)
    (s : EspState) :
    (callback topic payload now s).lastMQTTMessage = now ∧
    (arduinoTrim payload ∉ [cmdOn, cmdReset, cmdRestart, cmdPing] →
      callback topic payload now s = { s with lastMQTTMessage := now }) ∧
    (arduinoTrim payload = cmdPing →
      callback topic payload now s = { s with lastMQTTMessage := now }) := by
  refine ⟨?_, ?_, ?_⟩
  · simp only [callback]
    split
    · rfl
    · split
      · rfl
      · split
        · rfl
        · split
          · rfl
          · split <;> rfl
  · intro h
    simp only [List.mem_cons, List.not_mem_nil, or_false, not_or] at h
    obtain ⟨h1, h2, h3, h4⟩ := h
    simp only [callback]
    rw [if_neg (fun hc => h1 hc.1), if_neg h1, if_neg h2, if_neg h3, if_neg h4]
  · intro hp
    have h1 : ¬(arduinoTrim payload = cmdOn) := by rw [hp]; decide
    have h2 : ¬(arduinoTrim payload = cmdReset) := by rw [hp]; decide
    have h3 : ¬(arduinoTrim payload = cmdRestart) := by rw [hp]; decide
    simp only [callback]
    rw [if_neg (fun hc => h1 hc.1), if_neg h1, if_neg h2, if_neg h3, if_pos hp]

/-- C9 witness: the callback frame at the unrecognized payload `"brew!"`
and at the recognized `"ping"`. -/
theorem callback_frame_witness :
    (arduinoTrim ("brew!".toList) ∉ [cmdOn, cmdReset, cmdRestart, cmdPing]) ∧
    (callback ("topic".toList) ("brew!".toList) 42 bootState).lastMQTTMessage = 42 ∧
    callback ("topic".toList) ("brew!".toList) 42 bootState =
      { bootState with lastMQTTMessage := 42 } ∧
    callback ("topic".toList) (" ping ".toList) 42 bootState =
      { bootState with lastMQTTMessage := 42 } := by
  have hmem : arduinoTrim ("brew!".toList) ∉ [cmdOn, cmdReset, cmdRestart, cmdPing] := by
    decide
  have h := callback_frame ("topic".toList) ("brew!".toList) 42 bootState
  have hp := callback_frame ("topic".toList) (" ping ".toList) 42 bootState
  exact ⟨hmem, h.1, h.2.1 hmem, hp.2.2 (by decide)⟩

end SmartEspresso
